import Mathlib

/-!
Verification development for the `the-listener` input-dispatch library.

The library normalizes mouse / touch / pointer input: `addListener` selects a
dispatch strategy from the device capability profile (provided by `detect-it`),
parses configuration keys, and attaches native listeners whose inline guards
decide whether the caller's handler is invoked for a given native event.

The embedding translates the JavaScript source into Lean:
  * timestamps are `Int` milliseconds; an `undefined` timestamp is `Option.none`
    (in JavaScript, arithmetic on `undefined` yields `NaN`, and every comparison
    with `NaN` is false - modelled by `jsLt` / `jsGt` returning `false` on
    `none`);
  * each strategy function returns the list of native listener registrations it
    performs, each registration carrying the native event name and the guard
    wrapped around the caller's handler (`HandlerKind`);
  * `invokes` evaluates a guard against the shared touch-tracking state, the
    current time, and the native event's reported `pointerType`, exactly as the
    inline closures in the source do;
  * `firedCount` counts how many times the caller's handler runs when one
    native event is dispatched to a list of registrations.
-/

namespace TheListener

/-- Device type reported by the capability resolver (`detect-it`):
`mouseOnly`, `touchOnly`, `hybrid`, or anything else. -/
inductive DeviceType where
  | mouseOnly
  | touchOnly
  | hybrid
  | other
deriving DecidableEq, Fintype, Repr

/-- The injected read-only device capability profile (the `detectIt` object). -/
structure DetectIt where
  deviceType : DeviceType
  hasTouchEventsApi : Bool
  hasPointerEventsApi : Bool
  hasTouch : Bool
deriving DecidableEq, Fintype, Repr

/-- The listener-setter function chosen by `getListenerType`; the source
returns one of the four strategy functions or the no-op `cantSetListeners`. -/
inductive ListenerSetter where
  | mouse
  | touch
  | hybrid
  | pointer
  | cantSetListeners
deriving DecidableEq, Repr

/-- Embeds `getListenerType` (src/src/index.js lines 158-165; identical in
src/unnamed/part_003 lines 214-221): pick the listener setter from the device
profile, first match wins. -/
def getListenerType (dIt : DetectIt) : ListenerSetter :=
  if dIt.deviceType = DeviceType.mouseOnly then ListenerSetter.mouse
  else if dIt.deviceType = DeviceType.touchOnly ∧ dIt.hasTouchEventsApi then ListenerSetter.touch
  else if dIt.deviceType = DeviceType.hybrid ∧ dIt.hasTouchEventsApi then ListenerSetter.hybrid
  else if dIt.hasTouch ∧ dIt.hasPointerEventsApi then ListenerSetter.pointer
  else ListenerSetter.cantSetListeners

/-- Embeds `mouseEventsMap` (src/src/eventMaps.js lines 1-11): mouse-canonical
event name to pointer-canonical event name; doubles as the membership test
"is this a known mouse event". -/
def mouseEventsMap : String → Option String
  | "click" => some "click"
  | "dblclick" => some "dblclick"
  | "mousedown" => some "pointerdown"
  | "mouseup" => some "pointerup"
  | "mouseenter" => some "pointerenter"
  | "mouseleave" => some "pointerleave"
  | "mouseover" => some "pointerover"
  | "mouseout" => some "pointerout"
  | "mousemove" => some "pointermove"
  | _ => none

/-- Embeds `touchEventsMap` (src/src/eventMaps.js lines 13-18). -/
def touchEventsMap : String → Option String
  | "touchstart" => some "pointerdown"
  | "touchend" => some "pointerup"
  | "touchmove" => some "pointermove"
  | "touchcancel" => some "pointercancel"
  | _ => none

/-- JavaScript subtraction `now - t` where `t` may be `undefined`:
`undefined` coerces to `NaN`, which propagates (modelled as `none`). -/
def jsSub (now : Int) (t : Option Int) : Option Int :=
  t.map (fun v => now - v)

/-- JavaScript `x < c` where `x` may be `NaN` (`none`): every comparison
with `NaN` is false. -/
def jsLt (x : Option Int) (c : Int) : Bool :=
  match x with
  | none => false
  | some v => v < c

/-- JavaScript `x > c` where `x` may be `NaN` (`none`): every comparison
with `NaN` is false. -/
def jsGt (x : Option Int) (c : Int) : Bool :=
  match x with
  | none => false
  | some v => c < v

/-- Embeds the `TouchState` record (src/src/index.js lines 13-21,
src/unnamed/part_003 lines 28-44): per-target touch tracking state. The
constructor initializes `start = undefined`, `end = undefined`,
`active = false` and attaches `touchstart` / `touchend` / `touchcancel`
listeners performing the transitions `onTouchstart` / `onTouchend` below. -/
structure TouchState where
  start : Option Int
  «end» : Option Int
  active : Bool
deriving DecidableEq, Repr

/-- The state a fresh `new TouchState(target)` starts in. -/
def TouchState.init : TouchState :=
  { start := none, «end» := none, active := false }

/-- The tracker's `touchstart` listener:
`this.start = Date.now(); this.active = true`. -/
def TouchState.onTouchstart (ts : TouchState) (now : Int) : TouchState :=
  { ts with start := some now, active := true }

/-- The tracker's `touchend` (and `touchcancel`) listener:
`this.end = Date.now(); this.active = false`. -/
def TouchState.onTouchend (ts : TouchState) (now : Int) : TouchState :=
  { ts with «end» := some now, active := false }

/-- Embeds `TouchStartState` (src/src/index.js lines 31-35): the
start-time-only tracker used for click synthesis when no shared `TouchState`
is supplied; its constructor initializes `start = undefined` and attaches
only the `touchstart` listener. -/
structure TouchStartState where
  start : Option Int
deriving DecidableEq, Repr

/-- The state a fresh `new TouchStartState(target)` starts in. -/
def TouchStartState.init : TouchStartState :=
  { start := none }

/-- A JavaScript value as reported in `e.pointerType`: a string, a legacy
numeric code, or `undefined`. -/
inductive JSVal where
  | str (s : String)
  | num (n : Int)
  | undef
deriving DecidableEq, Repr

/-- Embeds the inner `pointerType` function of `setPointerListener`
(src/src/index.js lines 132-136): `['touch', 2, 'pen', 3]` classify as touch,
`['mouse', 4]` as mouse, anything else is unclassified (`indexOf` uses strict
equality, so only these exact values match). -/
def pointerType (v : JSVal) : Option String :=
  if v ∈ [JSVal.str "touch", JSVal.num 2, JSVal.str "pen", JSVal.num 3] then some "touch"
  else if v ∈ [JSVal.str "mouse", JSVal.num 4] then some "mouse"
  else none

/-- The guard wrapped around the caller's handler in a native listener
registration: one constructor per distinct inline closure in the source. -/
inductive HandlerKind where
  /-- the caller's handler is attached directly -/
  | handler
  /-- click synthesis on `touchend`: `new Date() - touch.start < 500 && handler(e)` -/
  | clickOnTouchend
  /-- assistive-technology click on touch-only devices: `!touch.active && Date.now() - touch.end > 600 && handler(e)` -/
  | synthClick
  /-- hybrid mouse guard: `!touchState.active && new Date() - touchState.end > 600 && handler(e)` -/
  | hybridMouse
  /-- pointer filter: `pointerType(e) === 'mouse' && handler(e)` -/
  | pointerMouse
  /-- pointer filter: `pointerType(e) === 'touch' && handler(e)` -/
  | pointerTouch
deriving DecidableEq, Repr

/-- One native `target.addEventListener(event, wrappedHandler, options)` call
performed by a strategy (listener options are irrelevant to handler
invocation and are not recorded). -/
structure Registration where
  event : String
  kind : HandlerKind
deriving DecidableEq, Repr

/-- Whether a registration's wrapped handler forwards a native event to the
caller's handler, given the tracker state `touch`, the dispatch time `now`
(the closure's `new Date()` / `Date.now()`), and the event's reported
`pointerType` value `pt`. Each arm transcribes the corresponding inline
closure of the source. -/
def invokes (k : HandlerKind) (touch : TouchState) (now : Int) (pt : JSVal) : Bool :=
  match k with
  | HandlerKind.handler => true
  | HandlerKind.clickOnTouchend => jsLt (jsSub now touch.start) 500
  | HandlerKind.synthClick => !touch.active && jsGt (jsSub now touch.«end») 600
  | HandlerKind.hybridMouse => !touch.active && jsGt (jsSub now touch.«end») 600
  | HandlerKind.pointerMouse => pointerType pt = some "mouse"
  | HandlerKind.pointerTouch => pointerType pt = some "touch"

/-- Number of times the caller's handler runs when the native event `name` is
dispatched once to the registrations `regs` (tracker state `touch`, dispatch
time `now`, reported pointer type `pt`). -/
def firedCount (regs : List Registration) (name : String) (touch : TouchState)
    (now : Int) (pt : JSVal) : Nat :=
  (regs.filter (fun r => r.event == name && invokes r.kind touch now pt)).length

/-- Embeds `setTouchListener` (src/unnamed/part_003 lines 56-88): honours the
`setWith` qualifier; attaches known touch events directly; synthesizes click
from `touchend` using the shared tracker (or a fresh one), plus an
assistive-technology `click` listener when the device is touch-only; passes
through events that are not known mouse events. Returns the registrations
performed. -/
def setTouchListener (dIt : DetectIt) (event : String) (setWith : Option String) :
    List Registration :=
  if setWith.isSome ∧ setWith ≠ some "setWithTouch" then []
  else if (touchEventsMap event).isSome then [{ event := event, kind := HandlerKind.handler }]
  else if event = "click" then
    { event := "touchend", kind := HandlerKind.clickOnTouchend } ::
      (if dIt.deviceType = DeviceType.touchOnly then
        [{ event := "click", kind := HandlerKind.synthClick }]
      else [])
  else if mouseEventsMap event = none ∨ setWith = some "setWithTouch" then
    [{ event := event, kind := HandlerKind.handler }]
  else []

/-- Embeds `setMouseListener` (src/unnamed/part_003 lines 100-113): honours
the `setWith` qualifier; attaches if the event is a known mouse event, or is
not a known touch event, or `setWith === 'setWithMouse'`. -/
def setMouseListener (event : String) (setWith : Option String) : List Registration :=
  if setWith.isSome ∧ setWith ≠ some "setWithMouse" then []
  else if (mouseEventsMap event).isSome ∨ touchEventsMap event = none ∨
      setWith = some "setWithMouse" then
    [{ event := event, kind := HandlerKind.handler }]
  else []

/-- Embeds `setHybridListener` (src/src/index.js lines 84-102,
src/unnamed/part_003 lines 125-150): delegate to `setTouchListener` (without a
`setWith` qualifier), then, if the event is a known mouse event, attach a
native listener guarded by
`!touchState.active && new Date() - touchState.end > 600`. -/
def setHybridListener (dIt : DetectIt) (event : String) : List Registration :=
  setTouchListener dIt event none ++
    (if (mouseEventsMap event).isSome then
      [{ event := event, kind := HandlerKind.hybridMouse }]
    else [])

/-- JavaScript `pointerOptions[key]` where the object may be absent and the
key may be `undefined` (reading key `undefined` from the caller's suppression
map yields `undefined`). -/
def jsLookup (obj : Option (String → Option Bool)) (key : Option String) : Option Bool :=
  match obj, key with
  | some f, some k => f k
  | _, _ => none

/-- Embeds `setPointerListener` (src/src/index.js lines 114-151): resolve the
pointer-canonical names of `event` in both maps; return early, attaching
nothing, when `pointerOptions` maps either resolved name to `false`;
otherwise attach `click` / `dblclick` directly, other mouse events on the
prefixed pointer name filtered to mouse, and touch events on the prefixed
pointer name filtered to touch. `pfix` is `detectIt.pointerEventsPrefix`. -/
def setPointerListener (pfix : String → String) (event : String)
    (pointerOptions : Option (String → Option Bool)) : List Registration :=
  let ptrTouchEvent := touchEventsMap event
  let ptrMouseEvent := mouseEventsMap event
  if pointerOptions.isSome ∧
      (jsLookup pointerOptions ptrTouchEvent = some false ∨
       jsLookup pointerOptions ptrMouseEvent = some false) then []
  else
    match ptrMouseEvent, ptrTouchEvent with
    | some pm, _ =>
      if pm = "click" ∨ pm = "dblclick" then [{ event := pm, kind := HandlerKind.handler }]
      else [{ event := pfix pm, kind := HandlerKind.pointerMouse }]
    | none, some pt => [{ event := pfix pt, kind := HandlerKind.pointerTouch }]
    | none, none => []

/-- Embeds `cantSetListeners` (src/src/index.js line 164), the no-op strategy
returned when no rule of `getListenerType` matches: it registers nothing. -/
def cantSetListeners (event : String) : List Registration :=
  []

/-- The `options` argument handed to `target.addEventListener`: a bare capture
boolean, or a `{capture, passive}` record. -/
inductive ListenerOptions where
  | bool (capture : Bool)
  | obj (capture : Bool) (passive : Bool)
deriving DecidableEq, Repr

/-- Embeds `getListenerOptions` (src/src/index.js lines 176-179, identical in
src/unnamed/part_003 lines 232-235); `hasPassive` is the injected
passive-support probe result. -/
def getListenerOptions (hasPassive passive capture : Bool) : ListenerOptions :=
  if !passive || !hasPassive then ListenerOptions.bool capture
  else ListenerOptions.obj capture passive

/-- Result of `parseKey`. -/
structure ParsedKey where
  events : List String
  listenerOptions : ListenerOptions
  setWith : Option String
deriving DecidableEq, Repr

/-- The recognized modifier tokens (the `optionsList` object,
src/unnamed/part_003 line 247). -/
def optionsList : List String :=
  ["passive", "capture", "setWithMouse", "setWithTouch", "setWithHybrid"]

/-- Helper for `jsSplit`: accumulate characters until the separator. -/
def splitAux (sep : Char) : List Char → List Char → List String
  | [], acc => [String.mk acc.reverse]
  | c :: cs, acc =>
    if c = sep then String.mk acc.reverse :: splitAux sep cs []
    else splitAux sep cs (c :: acc)

/-- JavaScript `s.split(sep)` for a single-character separator, as used by
`key.split(' ')` in `parseKey`: splits at every occurrence, keeping empty
pieces (`"a  b".split(' ')` is `["a", "", "b"]`, `"".split(' ')` is `[""]`). -/
def jsSplit (s : String) (sep : Char) : List String :=
  splitAux sep s.data []

/-- Embeds `parseKey` (src/unnamed/part_003 lines 245-255): split the key on
spaces; the non-modifier tokens are the event names; `listenerOptions` comes
from the `passive` / `capture` tokens via `getListenerOptions`; `setWith`
resolves the `setWith*` tokens with precedence `setWithHybrid`, then
`setWithMouse`, then `setWithTouch` (the JavaScript chain
`a && 'setWithHybrid' || b && 'setWithMouse' || c && 'setWithTouch' || undefined`). -/
def parseKey (hasPassive : Bool) (key : String) : ParsedKey :=
  let eventsAndOptions := jsSplit key ' '
  { events := eventsAndOptions.filter (fun v => !(optionsList.contains v)),
    listenerOptions := getListenerOptions hasPassive
      (eventsAndOptions.contains "passive") (eventsAndOptions.contains "capture"),
    setWith :=
      if eventsAndOptions.contains "setWithHybrid" then some "setWithHybrid"
      else if eventsAndOptions.contains "setWithMouse" then some "setWithMouse"
      else if eventsAndOptions.contains "setWithTouch" then some "setWithTouch"
      else none }

end TheListener

namespace TheListener

/-- C1: for every device capability profile, `getListenerType` returns exactly
one dispatch strategy, characterized by the first matching rule of the
priority list: `mouseOnly` gives Mouse-Only; `touchOnly` with the touch events
API gives Touch-Only; `hybrid` with the touch events API gives Hybrid;
otherwise touch capability with the pointer events API gives Pointer-Based;
any other profile gives the no-op `cantSetListeners`, which registers
nothing. -/
theorem claim_C1_strategy_selection :
    (∀ d : DetectIt,
      (getListenerType d = ListenerSetter.mouse ↔
        d.deviceType = DeviceType.mouseOnly) ∧
      (getListenerType d = ListenerSetter.touch ↔
        (d.deviceType = DeviceType.touchOnly ∧ d.hasTouchEventsApi)) ∧
      (getListenerType d = ListenerSetter.hybrid ↔
        (d.deviceType = DeviceType.hybrid ∧ d.hasTouchEventsApi)) ∧
      (getListenerType d = ListenerSetter.pointer ↔
        (d.hasTouch ∧ d.hasPointerEventsApi ∧
          ¬ d.deviceType = DeviceType.mouseOnly ∧
          ¬ (d.deviceType = DeviceType.touchOnly ∧ d.hasTouchEventsApi) ∧
          ¬ (d.deviceType = DeviceType.hybrid ∧ d.hasTouchEventsApi))) ∧
      (getListenerType d = ListenerSetter.cantSetListeners ↔
        (¬ d.deviceType = DeviceType.mouseOnly ∧
          ¬ (d.deviceType = DeviceType.touchOnly ∧ d.hasTouchEventsApi) ∧
          ¬ (d.deviceType = DeviceType.hybrid ∧ d.hasTouchEventsApi) ∧
          ¬ (d.hasTouch ∧ d.hasPointerEventsApi)))) ∧
    (∀ event : String, cantSetListeners event = []) := by
  exact ⟨by decide, fun _ => rfl⟩

/-- The known mouse-canonical names are exactly the nine keys of
`mouseEventsMap`. -/
theorem mouseEventsMap_isSome_cases (e : String) (h : (mouseEventsMap e).isSome) :
    e = "click" ∨ e = "dblclick" ∨ e = "mousedown" ∨ e = "mouseup" ∨ e = "mouseenter" ∨
      e = "mouseleave" ∨ e = "mouseover" ∨ e = "mouseout" ∨ e = "mousemove" := by
  unfold mouseEventsMap at h
  split at h <;> simp_all

/-- C2: under the Hybrid strategy, for every known mouse-canonical event name,
the attached native mouse listener invokes the handler exactly when the shared
touch state is not active and more than 600 ms have elapsed since the recorded
touchend timestamp; in particular, while `active = true` the handler is never
invoked, regardless of elapsed time. -/
theorem claim_C2_hybrid_mouse_guard :
    ∀ d : DetectIt, d.deviceType = DeviceType.hybrid →
    ∀ e : String, (mouseEventsMap e).isSome →
    ∀ (s : Option Int) (t now : Int) (a : Bool) (pt : JSVal),
      firedCount (setHybridListener d e) e { start := s, «end» := some t, active := a } now pt =
        if a = false ∧ 600 < now - t then 1 else 0 := by
  intro d hd e he s t now a pt
  rcases mouseEventsMap_isSome_cases e he with h | h | h | h | h | h | h | h | h <;> subst h <;>
    cases a <;>
      simp [setHybridListener, setTouchListener, firedCount, invokes, mouseEventsMap,
        touchEventsMap, jsSub, jsLt, jsGt, hd, List.filter_cons, List.filter_nil] <;>
      (try (split <;> rfl))

/-- Witness for C2: on a hybrid profile, a native `mousedown` at t = 601 after
a touchend recorded at t = 0, with the touch state inactive, invokes the
handler once; at t = 599 it does not; while active it does not even at
t = 10000. -/
theorem claim_C2_hybrid_mouse_guard_witness :
    firedCount (setHybridListener ⟨DeviceType.hybrid, true, false, true⟩ "mousedown")
        "mousedown" { start := some 0, «end» := some 0, active := false } 601 JSVal.undef = 1 ∧
      firedCount (setHybridListener ⟨DeviceType.hybrid, true, false, true⟩ "mousedown")
        "mousedown" { start := some 0, «end» := some 0, active := false } 599 JSVal.undef = 0 ∧
      firedCount (setHybridListener ⟨DeviceType.hybrid, true, false, true⟩ "mousedown")
        "mousedown" { start := some 0, «end» := some 0, active := true } 10000 JSVal.undef = 0 := by
  refine ⟨?_, ?_, ?_⟩
  · have h := claim_C2_hybrid_mouse_guard ⟨DeviceType.hybrid, true, false, true⟩ rfl
      "mousedown" (by decide) (some 0) 0 601 false JSVal.undef
    simpa using h
  · have h := claim_C2_hybrid_mouse_guard ⟨DeviceType.hybrid, true, false, true⟩ rfl
      "mousedown" (by decide) (some 0) 0 599 false JSVal.undef
    simpa using h
  · have h := claim_C2_hybrid_mouse_guard ⟨DeviceType.hybrid, true, false, true⟩ rfl
      "mousedown" (by decide) (some 0) 0 10000 true JSVal.undef
    simpa using h

/-- C3 (divergence witness): on a hybrid profile, with the shared touch state
still in its initial state (`end` undefined, `active` false - no touch event
ever fired), a native `mousedown` NEVER invokes the handler, at any time: the
guard compares `now - undefined` (`NaN` in JavaScript) with 600, which is
false. The spec and the library's own documentation say genuine mouse
interactions pass through. -/
theorem claim_C3_initial_state_blocks_mouse :
    ∀ (now : Int) (pt : JSVal),
      firedCount (setHybridListener ⟨DeviceType.hybrid, true, false, true⟩ "mousedown")
        "mousedown" TouchState.init now pt = 0 := by
  intro now pt
  simp [setHybridListener, setTouchListener, firedCount, invokes, mouseEventsMap,
    touchEventsMap, jsSub, jsLt, jsGt, TouchState.init, List.filter_cons, List.filter_nil]

/-- C5: under the Touch-Only strategy, registering `click` attaches a
`touchend` listener that invokes the handler exactly when the time elapsed
since the tracked touchstart timestamp is strictly less than 500 ms (and no
other registration of this strategy listens on `touchend`). -/
theorem claim_C5_click_on_touchend :
    ∀ d : DetectIt, d.deviceType = DeviceType.touchOnly →
    ∀ (s : Int) (e : Option Int) (a : Bool) (now : Int) (pt : JSVal),
      firedCount (setTouchListener d "click" none) "touchend"
          { start := some s, «end» := e, active := a } now pt =
        if now - s < 500 then 1 else 0 := by
  intro d hd s e a now pt
  simp [setTouchListener, firedCount, invokes, mouseEventsMap, touchEventsMap,
    jsSub, jsLt, jsGt, hd, List.filter_cons, List.filter_nil]
  split <;> rfl

/-- Witness for C5: a `touchstart` at t = 0 followed by a `touchend` at
t = 499 invokes the click handler exactly once; a `touchend` at t = 501 never
invokes it. -/
theorem claim_C5_click_on_touchend_witness :
    firedCount (setTouchListener ⟨DeviceType.touchOnly, true, false, true⟩ "click" none)
        "touchend" (TouchState.init.onTouchstart 0) 499 JSVal.undef = 1 ∧
      firedCount (setTouchListener ⟨DeviceType.touchOnly, true, false, true⟩ "click" none)
        "touchend" (TouchState.init.onTouchstart 0) 501 JSVal.undef = 0 := by
  constructor
  · have h := claim_C5_click_on_touchend ⟨DeviceType.touchOnly, true, false, true⟩ rfl
      0 none true 499 JSVal.undef
    simpa [TouchState.init, TouchState.onTouchstart] using h
  · have h := claim_C5_click_on_touchend ⟨DeviceType.touchOnly, true, false, true⟩ rfl
      0 none true 501 JSVal.undef
    simpa [TouchState.init, TouchState.onTouchstart] using h

/-- C6: under the Touch-Only strategy on a touch-only device, registering
`click` additionally attaches a native `click` listener that invokes the
handler exactly when the touch state is not active and more than 600 ms have
elapsed since the recorded touchend timestamp. -/
theorem claim_C6_touchOnly_synth_click :
    ∀ d : DetectIt, d.deviceType = DeviceType.touchOnly →
    ∀ (s : Option Int) (t now : Int) (a : Bool) (pt : JSVal),
      firedCount (setTouchListener d "click" none) "click"
          { start := s, «end» := some t, active := a } now pt =
        if a = false ∧ 600 < now - t then 1 else 0 := by
  intro d hd s t now a pt
  cases a <;>
    simp [setTouchListener, firedCount, invokes, mouseEventsMap, touchEventsMap,
      jsSub, jsLt, jsGt, hd, List.filter_cons, List.filter_nil] <;>
      (try (split <;> rfl))

/-- Witness for C6: with the tracker inactive and touchend recorded at t = 0,
a native `click` at t = 601 invokes the handler once; at t = 600 it does not;
while active it does not. -/
theorem claim_C6_touchOnly_synth_click_witness :
    firedCount (setTouchListener ⟨DeviceType.touchOnly, true, false, true⟩ "click" none)
        "click" { start := some 0, «end» := some 0, active := false } 601 JSVal.undef = 1 ∧
      firedCount (setTouchListener ⟨DeviceType.touchOnly, true, false, true⟩ "click" none)
        "click" { start := some 0, «end» := some 0, active := false } 600 JSVal.undef = 0 ∧
      firedCount (setTouchListener ⟨DeviceType.touchOnly, true, false, true⟩ "click" none)
        "click" { start := some 0, «end» := some 0, active := true } 5000 JSVal.undef = 0 := by
  refine ⟨?_, ?_, ?_⟩
  · have h := claim_C6_touchOnly_synth_click ⟨DeviceType.touchOnly, true, false, true⟩ rfl
      (some 0) 0 601 false JSVal.undef
    simpa using h
  · have h := claim_C6_touchOnly_synth_click ⟨DeviceType.touchOnly, true, false, true⟩ rfl
      (some 0) 0 600 false JSVal.undef
    simpa using h
  · have h := claim_C6_touchOnly_synth_click ⟨DeviceType.touchOnly, true, false, true⟩ rfl
      (some 0) 0 5000 true JSVal.undef
    simpa using h

/-- C10: under the Touch-Only strategy's click synthesis, if a `touchend`
fires before any `touchstart` ever fired, the tracked start timestamp is still
unset (as in a fresh `TouchStartState`), the elapsed-time comparison against
it is false (`NaN < 500` in JavaScript), and the click handler is never
invoked - for every device profile, dispatch time, and pointer type. -/
theorem claim_C10_touchend_without_touchstart :
    ∀ (d : DetectIt) (e : Option Int) (a : Bool) (now : Int) (pt : JSVal),
      TouchStartState.init.start = none ∧
      firedCount (setTouchListener d "click" none) "touchend"
        { start := TouchStartState.init.start, «end» := e, active := a } now pt = 0 := by
  intro d e a now pt
  refine ⟨rfl, ?_⟩
  rcases d with ⟨dt, h1, h2, h3⟩
  cases dt <;>
    simp [setTouchListener, firedCount, invokes, mouseEventsMap, touchEventsMap,
      jsSub, jsLt, jsGt, TouchStartState.init, List.filter_cons, List.filter_nil]

/-- C4 counterexample: a key containing both `setWithMouse` and `setWithTouch`
(and not `setWithHybrid`) parses to the qualifier `setWithMouse`, not to "no
qualifier"; and that qualifier does restrict strategies: the Touch-Only
strategy then registers nothing, even for the touch event named by the key. -/
theorem claim_C4_counterexample :
    (parseKey true "touchstart setWithMouse setWithTouch").setWith = some "setWithMouse" ∧
      setTouchListener ⟨DeviceType.touchOnly, true, false, true⟩ "touchstart"
        ((parseKey true "touchstart setWithMouse setWithTouch").setWith) = [] := by
  exact ⟨by decide, by decide⟩

/-- C4 (amended): for every configuration key whose tokens include both
`setWithMouse` and `setWithTouch` but not `setWithHybrid`, the Key Parser
returns the qualifier `setWithMouse` - the precedence
`setWithHybrid > setWithMouse > setWithTouch` applies - so the mouse
restriction, not "no restriction", is what the parse produces. -/
theorem claim_C4_amended_both_qualifiers :
    ∀ (hasPassive : Bool) (key : String),
      "setWithMouse" ∈ jsSplit key ' ' →
      "setWithTouch" ∈ jsSplit key ' ' →
      "setWithHybrid" ∉ jsSplit key ' ' →
      (parseKey hasPassive key).setWith = some "setWithMouse" := by
  intro hp key h1 h2 h3
  simp [parseKey, h1, h2, h3]

/-- Witness for the amended C4 at a concrete key. -/
theorem claim_C4_amended_witness :
    (parseKey false "click setWithMouse setWithTouch").setWith = some "setWithMouse" :=
  claim_C4_amended_both_qualifiers false "click setWithMouse setWithTouch"
    (by decide) (by decide) (by decide)

/-- C7: for the pointer-event filters of `setPointerListener`, a reported
`pointerType` among `'touch'`, `'pen'`, `2`, `3` invokes only the touch-bound
handler; `'mouse'` or `4` invokes only the mouse-bound handler; any other
reported value invokes neither. -/
theorem claim_C7_pointer_classification :
    ∀ (v : JSVal) (ts : TouchState) (now : Int),
      (v ∈ [JSVal.str "touch", JSVal.str "pen", JSVal.num 2, JSVal.num 3] →
        invokes HandlerKind.pointerTouch ts now v = true ∧
          invokes HandlerKind.pointerMouse ts now v = false) ∧
      (v ∈ [JSVal.str "mouse", JSVal.num 4] →
        invokes HandlerKind.pointerMouse ts now v = true ∧
          invokes HandlerKind.pointerTouch ts now v = false) ∧
      (v ∉ [JSVal.str "touch", JSVal.str "pen", JSVal.num 2, JSVal.num 3,
          JSVal.str "mouse", JSVal.num 4] →
        invokes HandlerKind.pointerTouch ts now v = false ∧
          invokes HandlerKind.pointerMouse ts now v = false) := by
  intro v ts now
  refine ⟨?_, ?_, ?_⟩
  · intro h
    fin_cases h <;> simp [invokes, pointerType]
  · intro h
    fin_cases h <;> simp [invokes, pointerType]
  · intro h
    simp only [List.mem_cons, List.not_mem_nil, or_false, not_or] at h
    obtain ⟨h1, h2, h3, h4, h5, h6⟩ := h
    simp [invokes, pointerType, h1, h2, h3, h4, h5, h6]

/-- Witness for C7: a `'pen'` pointer invokes only the touch filter, a `4`
pointer invokes only the mouse filter, and an `undefined` pointer type
invokes neither. -/
theorem claim_C7_pointer_classification_witness :
    (invokes HandlerKind.pointerTouch TouchState.init 0 (JSVal.str "pen") = true ∧
      invokes HandlerKind.pointerMouse TouchState.init 0 (JSVal.str "pen") = false) ∧
      (invokes HandlerKind.pointerMouse TouchState.init 0 (JSVal.num 4) = true ∧
        invokes HandlerKind.pointerTouch TouchState.init 0 (JSVal.num 4) = false) ∧
      (invokes HandlerKind.pointerTouch TouchState.init 0 JSVal.undef = false ∧
        invokes HandlerKind.pointerMouse TouchState.init 0 JSVal.undef = false) :=
  ⟨(claim_C7_pointer_classification (JSVal.str "pen") TouchState.init 0).1 (by decide),
    (claim_C7_pointer_classification (JSVal.num 4) TouchState.init 0).2.1 (by decide),
    (claim_C7_pointer_classification JSVal.undef TouchState.init 0).2.2 (by decide)⟩

/-- C8: under the Pointer-Based strategy, if `pointerOptions` maps the
resolved pointer-event name of the registered event to `false`,
`setPointerListener` returns early and attaches no native listener at all; in
particular `pointerOptions = {pointermove: false}` yields zero registrations
for both the `mousemove` and `touchmove` canonical names. -/
theorem claim_C8_pointerOptions_suppression :
    (∀ (pfix : String → String) (event : String) (po : String → Option Bool),
      (jsLookup (some po) (touchEventsMap event) = some false ∨
        jsLookup (some po) (mouseEventsMap event) = some false) →
      setPointerListener pfix event (some po) = []) ∧
    (∀ pfix : String → String,
      setPointerListener pfix "mousemove"
          (some fun k => if k = "pointermove" then some false else none) = [] ∧
        setPointerListener pfix "touchmove"
          (some fun k => if k = "pointermove" then some false else none) = []) := by
  constructor
  · intro pfix event po h
    simp only [setPointerListener]
    split
    · rfl
    · rename_i hcond
      exact absurd ⟨rfl, h⟩ hcond
  · intro pfix
    exact ⟨rfl, rfl⟩

/-- Witness for C8: with `pointerOptions = {pointermove: false}` and the
identity prefixing function, registering `mousemove` attaches nothing (via
the general early-return fact applied at a concrete input). -/
theorem claim_C8_pointerOptions_suppression_witness :
    setPointerListener id "mousemove"
      (some fun k => if k = "pointermove" then some false else none) = [] :=
  claim_C8_pointerOptions_suppression.1 id "mousemove"
    (fun k => if k = "pointermove" then some false else none) (Or.inr rfl)

/-- C9: for every configuration key, `listenerOptions` is the bare capture
boolean when the `passive` token is absent or the host lacks passive support,
and the `{capture, passive}` record otherwise; in particular
`"touchstart capture passive"` parses to events `["touchstart"]` with
`{capture: true, passive: true}` under passive support, and to the boolean
`true` without it. -/
theorem claim_C9_listener_options :
    (∀ (hasPassive : Bool) (key : String),
      (parseKey hasPassive key).listenerOptions =
        if "passive" ∉ jsSplit key ' ' ∨ hasPassive = false then
          ListenerOptions.bool ((jsSplit key ' ').contains "capture")
        else ListenerOptions.obj ((jsSplit key ' ').contains "capture") true) ∧
    (parseKey true "touchstart capture passive").events = ["touchstart"] ∧
    (parseKey true "touchstart capture passive").listenerOptions =
      ListenerOptions.obj true true ∧
    (parseKey false "touchstart capture passive").listenerOptions =
      ListenerOptions.bool true := by
  refine ⟨?_, by decide, by decide, by decide⟩
  intro hasPassive key
  by_cases hp : "passive" ∈ jsSplit key ' ' <;> cases hasPassive <;>
    simp [parseKey, getListenerOptions, hp]

end TheListener
